import Mathlib

/-!
Shallow embedding of the multi-architecture CPU-state and
calling-convention abstraction layer (`pandare/arch.py`).

Pure data (register-name tables, calling-convention tables,
return-value tables) is transcribed literally from each architecture
class's `__init__`.  The mutable guest register file is modelled as an
explicit `CpuState` value threaded through operations; external guest
memory reads are a function parameter that may fail (`Option`); Python
exceptions become an explicit `ArchError` sum returned through `Except`.
-/

set_option autoImplicit false

namespace PandaArch

/-- Error kinds surfaced by the layer.  Each constructor corresponds to a
`raise` site in the source: `unknownRegister` to
`ValueError("Invalid register name ...")`, `invalidRegisterReference` to
`ValueError("Can't set register ...")`, `unsupportedConvention` to
`NotImplementedError("Unsupported convention ...")` and
`NotImplementedError("Unsupported get_retval ...")`,
`argumentIndexOutOfRange` to
`NotImplementedError("Unsupported argument number ...")`,
`invalidStackSlotName` to the `ValueError` raised by `int(...)` when a
stack-location suffix is not numeric, `memoryReadError` to the
`ValueError` propagated from `panda.virtual_memory_read`, and
`unsupportedOperation` to the `RuntimeError` for unimplemented
PC access. -/
inductive ArchError where
  | unknownRegister (name : String)
  | invalidRegisterReference
  | unsupportedOperation (msg : String)
  | unsupportedConvention (conv : String)
  | argumentIndexOutOfRange (idx : Nat)
  | invalidStackSlotName (loc : String)
  | memoryReadError (addr : Int)
  deriving Repr, DecidableEq

/-- A register reference: either a textual name or an already-resolved
index (`reg` being a `str` or an `int` in `get_reg`/`set_reg`). -/
inductive RegRef where
  | byName (s : String)
  | byIdx (n : Nat)

/-- The guest register file (`cpu.env_ptr.regs` / `.xregs` /
`.active_tc.gpr`), owned by the execution engine and modelled as a total
map from raw slot index to the stored machine word. -/
structure CpuState where
  regs : Nat → Int

/-- The six architecture variants implemented in the source. -/
inductive ArchKind where
  | arm
  | aarch64
  | mips
  | mips64
  | x86
  | x86_64
  deriving Repr, DecidableEq

/-- Python `str.upper()` on the ASCII register and location names used
throughout the source: uppercase each character. -/
def strUpper (s : String) : String := ⟨s.data.map Char.toUpper⟩

/-- Python `str.startswith("stack_")`, the `_is_stack_loc` test. -/
def isStackLoc (loc : String) : Bool := "stack_".data.isPrefixOf loc.data

/-- Python `int(...)` on the stack-slot suffixes occurring here: a
non-empty all-digit string parses to its value, anything else (such as
the literal suffix of `stack_\x7bx\x7d`) raises `ValueError`, modelled
as `none`. -/
def parseNat (cs : List Char) : Option Nat :=
  if cs.isEmpty then none
  else
    cs.foldl
      (fun acc c =>
        match acc with
        | none => none
        | some n => if c.isDigit then some (n * 10 + (c.toNat - 48)) else none)
      (some 0)

/-- One insertion step of a Python `dict` build: a duplicate key keeps
its position but takes the new value; a fresh key is appended. -/
def dictInsert (d : List (String × Nat)) (k : String) (v : Nat) :
    List (String × Nat) :=
  if d.any (fun p => p.1 == k) then
    d.map (fun p => if p.1 == k then (k, v) else p)
  else d ++ [(k, v)]

/-- `{regnames[idx]: idx for idx in range(len(regnames))}` with Python
dict semantics. -/
def buildRegs (names : List String) : List (String × Nat) :=
  names.enum.foldl (fun d p => dictInsert d p.2 p.1) []

/-- The immutable per-architecture profile data assembled in each
variant's `__init__`. -/
structure ArchProfile where
  bits : Nat
  registers : List (String × Nat)
  reg_sp : Nat
  call_conventions : List (String × List String)
  reg_retval : List (String × String)

/-- `ArmArch.__init__` register-name list. -/
def armRegnames : List String :=
  ["R0", "R1", "R2", "R3", "R4", "R5", "R6", "R7",
   "R8", "R9", "R10", "R11", "R12", "SP", "LR", "IP"]

/-- Profile data of `ArmArch`. -/
def armProfile : ArchProfile where
  bits := 32
  registers := buildRegs armRegnames
  reg_sp := armRegnames.findIdx (fun s => s == "SP")
  call_conventions :=
    [("arm32", ["R0", "R1", "R2", "R3"]),
     ("syscall", ["R7", "R0", "R1", "R2", "R3", "R4", "R5"]),
     ("default", ["R0", "R1", "R2", "R3"])]
  reg_retval := [("default", "R0"), ("syscall", "R0")]

/-- `Aarch64Arch.__init__` register-name list, transcribed exactly: the
source list names "X27" twice (indices 27 and 28). -/
def aarch64Regnames : List String :=
  ["X0", "X1", "X2", "X3", "X4", "X5", "X6", "X7",
   "XR", "X9", "X10", "X11", "X12", "X13", "X14",
   "X15", "IP0", "IP1", "PR", "X19", "X20", "X21",
   "X22", "X23", "X24", "X25", "X26", "X27", "X27",
   "X28", "FP", "LR", "SP"]

/-- Profile data of `Aarch64Arch`. -/
def aarch64Profile : ArchProfile where
  bits := 64
  registers := buildRegs aarch64Regnames
  reg_sp := aarch64Regnames.findIdx (fun s => s == "SP")
  call_conventions :=
    [("arm64", ["X0", "X1", "X2", "X3", "X4", "X5", "X6", "X7"]),
     ("syscall", ["XR", "X0", "X1", "X2", "X3", "X4", "X5", "X6", "X7"]),
     ("default", ["X0", "X1", "X2", "X3", "X4", "X5", "X6", "X7"])]
  reg_retval := [("default", "X0"), ("syscall", "X0")]

/-- `MipsArch.__init__` register-name list (lowercase in the source;
the dict is built from the uppercased names). -/
def mipsRegnames : List String :=
  ["zero", "at", "v0", "v1", "a0", "a1", "a2", "a3",
   "t0", "t1", "t2", "t3", "t4", "t5", "t6", "t7",
   "s0", "s1", "s2", "s3", "s4", "s5", "s6", "s7",
   "t8", "t9", "k0", "k1", "gp", "sp", "fp", "ra"]

/-- Profile data of `MipsArch` (32-bit MIPS, o32 tables). -/
def mipsProfile : ArchProfile where
  bits := 32
  registers := buildRegs (mipsRegnames.map strUpper)
  reg_sp := mipsRegnames.findIdx (fun s => s == "sp")
  call_conventions :=
    [("mips", ["A0", "A1", "A2", "A3"]),
     ("syscall", ["V0", "A0", "A1", "A2", "A3",
                  "stack_1", "stack_2", "stack_3", "stack_4"]),
     ("default", ["A0", "A1", "A2", "A3"])]
  reg_retval := [("default", "V0"), ("syscall", "V0")]

/-- `Mips64Arch.__init__` register-name list. -/
def mips64Regnames : List String :=
  ["zero", "at", "v0", "v1", "a0", "a1", "a2", "a3",
   "a4", "a5", "a6", "a7", "t0", "t1", "t2", "t3",
   "s0", "s1", "s2", "s3", "s4", "s5", "s6", "s7",
   "t8", "t9", "k0", "k1", "gp", "sp", "s8", "ra"]

/-- Profile data of `Mips64Arch` (tables replaced, logic inherited from
`MipsArch`). -/
def mips64Profile : ArchProfile where
  bits := 64
  registers := buildRegs (mips64Regnames.map strUpper)
  reg_sp := mips64Regnames.findIdx (fun s => s == "sp")
  call_conventions :=
    [("mips", ["A0", "A1", "A2", "A3"]),
     ("syscall", ["V0", "A0", "A1", "A2", "A3", "A4", "A5"]),
     ("default", ["A0", "A1", "A2", "A3"])]
  reg_retval := [("default", "V0"), ("syscall", "V0")]

/-- `X86Arch.__init__` register-name list. -/
def x86Regnames : List String :=
  ["EAX", "ECX", "EDX", "EBX", "ESP", "EBP", "ESI", "EDI"]

/-- Profile data of `X86Arch`.  The source builds the cdecl convention
as `["stack_{x}" for x in range(20)]`: the string literal has no
f-string prefix, so the list is twenty copies of the literal text
`stack_{x}`. -/
def x86Profile : ArchProfile where
  bits := 32
  registers := buildRegs x86Regnames
  reg_sp := x86Regnames.findIdx (fun s => s == "ESP")
  call_conventions :=
    [("cdecl", List.replicate 20 "stack_\x7bx\x7d"),
     ("syscall", ["EAX", "EBX", "ECX", "EDX", "ESI", "EDI", "EBP"]),
     ("default", List.replicate 20 "stack_\x7bx\x7d")]
  reg_retval := [("default", "EAX"), ("syscall", "EAX")]

/-- `X86_64Arch.__init__` register-name list. -/
def x86_64Regnames : List String :=
  ["RAX", "RCX", "RDX", "RBX", "RSP", "RBP", "RSI", "RDI",
   "R8", "R9", "R10", "R11", "R12", "R13", "R14", "R15"]

/-- Profile data of `X86_64Arch`. -/
def x86_64Profile : ArchProfile where
  bits := 64
  registers := buildRegs x86_64Regnames
  reg_sp := x86_64Regnames.findIdx (fun s => s == "RSP")
  call_conventions :=
    [("sysv", ["RDI", "RSI", "RDX", "RCX", "R8", "R9"]),
     ("syscall", ["RAX", "RDI", "RSI", "RDX", "R10", "R8", "R9"]),
     ("default", ["RDI", "RSI", "RDX", "RCX", "R8", "R9"])]
  reg_retval := [("sysv", "RAX"), ("syscall", "RAX"), ("default", "RAX")]

/-- The profile assembled for each architecture variant. -/
def profile : ArchKind → ArchProfile
  | .arm => armProfile
  | .aarch64 => aarch64Profile
  | .mips => mipsProfile
  | .mips64 => mips64Profile
  | .x86 => x86Profile
  | .x86_64 => x86_64Profile

/-- Per-architecture `_get_reg_val`: a plain indexed read, except that
`Aarch64Arch._get_reg_val` answers index 32 (the unmapped "SP" alias
slot) with 0 and a printed warning instead of reading `xregs`. -/
def rawGet (a : ArchKind) (cpu : CpuState) (i : Nat) : Int :=
  match a with
  | .aarch64 => if i = 32 then 0 else cpu.regs i
  | _ => cpu.regs i

/-- Per-architecture `_set_reg_val`: store into the engine's register
file.  The file holds machine words of the profile's width, so the
stored value is reduced modulo `2 ^ bits`. -/
def rawSet (a : ArchKind) (cpu : CpuState) (i : Nat) (v : Int) : CpuState :=
  { regs := fun j => if j = i then v % (2 ^ (profile a).bits) else cpu.regs j }

/-- Lookup in the profile's register-name table. -/
def lookupReg (a : ArchKind) (name : String) : Option Nat :=
  ((profile a).registers).lookup name

/-- `PandaArch.get_reg`: a textual name is uppercased and resolved in
the table (failing with `unknownRegister` if absent); an index is passed
straight to the raw accessor. -/
def get_reg (a : ArchKind) (cpu : CpuState) (r : RegRef) : Except ArchError Int :=
  match r with
  | .byName s =>
    match lookupReg a (strUpper s) with
    | none => .error (.unknownRegister (strUpper s))
    | some i => .ok (rawGet a cpu i)
  | .byIdx i => .ok (rawGet a cpu i)

/-- `PandaArch.set_reg`: same resolution as `get_reg`, then the raw
store. -/
def set_reg (a : ArchKind) (cpu : CpuState) (r : RegRef) (val : Int) :
    Except ArchError CpuState :=
  match r with
  | .byName s =>
    match lookupReg a (strUpper s) with
    | none => .error (.unknownRegister (strUpper s))
    | some i => .ok (rawSet a cpu i val)
  | .byIdx i => .ok (rawSet a cpu i val)

/-- `set_register` followed by `get_register` on the same reference. -/
def set_then_get (a : ArchKind) (cpu : CpuState) (r : RegRef) (v : Int) :
    Except ArchError Int :=
  match set_reg a cpu r v with
  | .error e => .error e
  | .ok c => get_reg a c r

/-- `PandaArch._get_arg_loc`: resolve convention name and positional
index to an argument location. -/
def getArgLoc (a : ArchKind) (idx : Nat) (conv : String) :
    Except ArchError String :=
  match ((profile a).call_conventions).lookup conv with
  | none => .error (.unsupportedConvention conv)
  | some locs =>
    if h : idx < locs.length then .ok (locs.get ⟨idx, h⟩)
    else .error (.argumentIndexOutOfRange idx)

/-- `PandaArch._read_stack`: parse the slot number out of a
`stack_N` location name (`int(argloc.split("stack_")[1])`; for the
location names occurring in the tables the split removes exactly the
six-character `stack_` prefix), read the stack pointer, and read one
word of guest memory at `sp + word_size * (N + 1)`.  The external
memory collaborator is a function that may fail. -/
def readStack (a : ArchKind) (cpu : CpuState) (mem : Int → Nat → Option Int)
    (argloc : String) : Except ArchError Int :=
  match parseNat (argloc.data.drop 6) with
  | none => .error (.invalidStackSlotName argloc)
  | some stackIdx =>
    let stackBase := rawGet a cpu (profile a).reg_sp
    let argSz := (profile a).bits / 8
    let offset := argSz * (stackIdx + 1)
    match mem (stackBase + offset) argSz with
    | none => .error (.memoryReadError (stackBase + offset))
    | some v => .ok v

/-- `PandaArch.get_arg`: resolve the location; a `stack_`-prefixed
location is read from guest memory, any other location is read as a
register name. -/
def get_arg (a : ArchKind) (cpu : CpuState) (mem : Int → Nat → Option Int)
    (idx : Nat) (conv : String) : Except ArchError Int :=
  match getArgLoc a idx conv with
  | .error e => .error e
  | .ok argloc =>
    if isStackLoc argloc then readStack a cpu mem argloc
    else get_reg a cpu (.byName argloc)

/-- `PandaArch.set_arg`: resolve the location and write it as a
register name (the source has no stack case here). -/
def set_arg (a : ArchKind) (cpu : CpuState) (idx : Nat) (val : Int)
    (conv : String) : Except ArchError CpuState :=
  match getArgLoc a idx conv with
  | .error e => .error e
  | .ok reg => set_reg a cpu (.byName reg) val

/-- `PandaArch._get_ret_val_reg`: resolve the convention's return-value
register name. -/
def getRetValReg (a : ArchKind) (conv : String) : Except ArchError String :=
  match ((profile a).reg_retval).lookup conv with
  | none => .error (.unsupportedConvention conv)
  | some r => .ok r

/-- Modelled from the spec: the host object's `from_unsigned_guest`
conversion is invoked but not among the provided sources; per the spec
it is the two's-complement signed reinterpretation of an unsigned
machine word at the profile's word width. -/
def from_unsigned_guest (bits : Nat) (v : Int) : Int :=
  if v ≥ 2 ^ (bits - 1) then v - 2 ^ bits else v

/-- `PandaArch.get_retval`: read the convention's return-value
register; when the convention is `syscall`, convert the raw word to its
signed reinterpretation. -/
def base_get_retval (a : ArchKind) (cpu : CpuState) (conv : String) :
    Except ArchError Int :=
  match getRetValReg a conv with
  | .error e => .error e
  | .ok reg =>
    match get_reg a cpu (.byName reg) with
    | .error e => .error e
    | .ok rv =>
      if conv = "syscall" then .ok (from_unsigned_guest (profile a).bits rv)
      else .ok rv

/-- `PandaArch.set_retval`: write the convention's return-value
register (the `failure` flag is ignored by the base class). -/
def base_set_retval (a : ArchKind) (cpu : CpuState) (val : Int)
    (conv : String) : Except ArchError CpuState :=
  match getRetValReg a conv with
  | .error e => .error e
  | .ok reg => set_reg a cpu (.byName reg) val

/-- `MipsArch.get_retval`: when the convention is `syscall` and the A3
register reads exactly 1, the result is negated.  The delegation
`super().get_retval(cpu)` in the source passes no convention, so the
base runs with its default convention `"default"`. -/
def mips_get_retval (a : ArchKind) (cpu : CpuState) (conv : String) :
    Except ArchError Int :=
  match ((if conv = "syscall" then
            match get_reg a cpu (.byName "A3") with
            | .error e => .error e
            | .ok a3 => .ok (if a3 = 1 then (-1 : Int) else 1)
          else .ok (1 : Int)) : Except ArchError Int) with
  | .error e => .error e
  | .ok flip =>
    match base_get_retval a cpu "default" with
    | .error e => .error e
    | .ok rv => .ok (flip * rv)

/-- `MipsArch.set_retval`: for the `syscall` convention, write A3 to
the failure flag, and if `failure` holds and the value's signed
reinterpretation is negative, store its negation instead of the value;
then delegate to the base write. -/
def mips_set_retval (a : ArchKind) (cpu : CpuState) (val : Int)
    (conv : String) (failure : Bool) : Except ArchError CpuState :=
  if conv = "syscall" then
    match set_reg a cpu (.byName "a3") (if failure then 1 else 0) with
    | .error e => .error e
    | .ok cpu1 =>
      let val1 :=
        if failure = true ∧ from_unsigned_guest (profile a).bits val < 0 then
          -1 * from_unsigned_guest (profile a).bits val
        else val
      base_set_retval a cpu1 val1 conv
  else base_set_retval a cpu val conv

/-- The `get_retval` the facade dispatches to: the MIPS variants use
the `MipsArch` override, everything else the base behaviour. -/
def get_retval (a : ArchKind) (cpu : CpuState) (conv : String) :
    Except ArchError Int :=
  match a with
  | .mips => mips_get_retval .mips cpu conv
  | .mips64 => mips_get_retval .mips64 cpu conv
  | _ => base_get_retval a cpu conv

/-- The `set_retval` the facade dispatches to: the MIPS variants use
the `MipsArch` override, everything else the base behaviour. -/
def set_retval (a : ArchKind) (cpu : CpuState) (val : Int) (conv : String)
    (failure : Bool) : Except ArchError CpuState :=
  match a with
  | .mips => mips_set_retval .mips cpu val conv failure
  | .mips64 => mips_set_retval .mips64 cpu val conv failure
  | _ => base_set_retval a cpu val conv

/-- All-zero register file, used for concrete evaluations. -/
def cpu0 : CpuState := ⟨fun _ => 0⟩

/-- A guest memory in which every read succeeds, used to show that some
operations fail before ever touching memory. -/
def memOk : Int → Nat → Option Int := fun _ _ => some 99

end PandaArch

namespace PandaArch

/-! ### Helper lemmas about association-list lookup and the tables -/

theorem lookup_mem {d : List (String × Nat)} {k : String} {v : Nat}
    (h : d.lookup k = some v) : (k, v) ∈ d := by
  induction d with
  | nil => simp [List.lookup] at h
  | cons p tl ih =>
    obtain ⟨k', v'⟩ := p
    rw [List.lookup] at h
    cases hk : k == k' with
    | true =>
      rw [hk] at h
      simp only [Option.some.injEq] at h
      subst h
      have hkk : k = k' := by simpa using hk
      subst hkk
      exact List.mem_cons_self _ _
    | false =>
      rw [hk] at h
      exact List.mem_cons_of_mem _ (ih h)

theorem mem_keys_isSome {d : List (String × Nat)} {k : String}
    (h : k ∈ d.map Prod.fst) : (d.lookup k).isSome := by
  induction d with
  | nil => simp at h
  | cons p tl ih =>
    obtain ⟨k', v'⟩ := p
    rw [List.lookup]
    cases hk : k == k' with
    | true => simp
    | false =>
      simp only [List.map_cons, List.mem_cons] at h
      rcases h with h | h
      · exact absurd (by simpa using hk) (by simpa using h)
      · exact ih h

/-- Every key of every profile's register table is already uppercase
(`note names must be stored uppercase for get/set reg to work
case-insensitively`). -/
theorem keys_upper (a : ArchKind) :
    ∀ p ∈ (profile a).registers, strUpper p.1 = p.1 := by
  cases a <;> decide

/-- If a table entry refers to a profile's register name, that name is
uppercase. -/
theorem key_upper_of_mem (a : ArchKind) (name : String)
    (hmem : name ∈ (profile a).registers.map Prod.fst) :
    strUpper name = name := by
  obtain ⟨p, hp, hpe⟩ := List.mem_map.mp hmem
  rw [← hpe]
  exact keys_upper a p hp

/-- In the AArch64 register table, the only name resolving to the
unmapped alias slot 32 is "SP". -/
theorem aarch64_reg32_sp :
    ∀ p ∈ (profile ArchKind.aarch64).registers, p.2 = 32 → p.1 = "SP" := by
  decide

/-- Generic set-then-get round trip: a name resolving to a slot that is
not AArch64's unmapped alias slot reads back the written word. -/
theorem set_get_roundtrip (a : ArchKind) (cpu : CpuState) (s : String)
    (i : Nat) (v : Int)
    (hl : lookupReg a (strUpper s) = some i)
    (h32 : a = ArchKind.aarch64 → i ≠ 32)
    (h0 : 0 ≤ v) (hw : v < 2 ^ (profile a).bits) :
    set_then_get a cpu (RegRef.byName s) v = .ok v := by
  have hmod : v % ((2 : Int) ^ (profile a).bits) = v := Int.emod_eq_of_lt h0 hw
  cases a
  case aarch64 =>
    have hi : i ≠ 32 := h32 rfl
    simp only [set_then_get, set_reg, get_reg, hl]
    simp [rawGet, rawSet, hi, hmod]
  all_goals
    simp only [set_then_get, set_reg, get_reg, hl]
    simp [rawGet, rawSet, hmod]

end PandaArch

namespace PandaArch

/-! ### Concrete register files used in witnesses and counterexamples -/

/-- MIPS file with V0 (slot 2) = 0xFFFFFFFF, everything else 0. -/
def cpuC2 : CpuState := ⟨fun i => if i = 2 then 4294967295 else 0⟩

/-- MIPS file with A3 (slot 7) = 2 and V0 (slot 2) = 5. -/
def cpuC4 : CpuState := ⟨fun i => if i = 7 then 2 else if i = 2 then 5 else 0⟩

/-- MIPS file with A3 (slot 7) = 1 and V0 (slot 2) = 5. -/
def cpuA3one : CpuState := ⟨fun i => if i = 7 then 1 else if i = 2 then 5 else 0⟩

/-- MIPS file with A3 (slot 7) = 0 and V0 (slot 2) = 5. -/
def cpuA3zero : CpuState := ⟨fun i => if i = 2 then 5 else 0⟩

/-- ARM file with R0 (slot 0) = 42. -/
def cpuC9 : CpuState := ⟨fun i => if i = 0 then 42 else 0⟩

/-! ### Claims -/

/-- C1: on X86 the "cdecl" convention never reaches the stack read: the
location list is twenty copies of the literal `stack_\x7bx\x7d` (the
source comprehension lacks the f-string prefix), so `get_argument`
fails parsing the slot number for every memory collaborator and every
CPU state, with an error that is not a memory-read error; it does not
compute `ESP + 4` and does not read guest memory. -/
theorem C1_bug_thm (cpu : CpuState) (mem : Int → Nat → Option Int) :
    get_arg ArchKind.x86 cpu mem 0 "cdecl" =
      .error (.invalidStackSlotName "stack_\x7bx\x7d") ∧
    ∀ addr, ArchError.invalidStackSlotName "stack_\x7bx\x7d" ≠
      ArchError.memoryReadError addr := by
  refine ⟨rfl, ?_⟩
  intro addr h
  exact ArchError.noConfusion h

/-- C2: on MIPS, `get_retval(cpu, "syscall")` with A3 = 0 and
V0 = 0xFFFFFFFF returns the raw unsigned word 4294967295, although its
two's-complement reinterpretation at 32 bits is -1: the signed
conversion the claim requires is skipped because `MipsArch.get_retval`
delegates to the base without passing the convention. -/
theorem C2_bug_thm :
    get_retval ArchKind.mips cpuC2 "syscall" = .ok 4294967295 ∧
    from_unsigned_guest 32 4294967295 = -1 := by
  exact ⟨rfl, by decide⟩

/-- C3 counterexample: the set-then-get round trip fails on AArch64's
register name "SP": writing 1 and reading back yields 0, because the
name resolves to the unmapped alias slot 32 whose raw read answers 0. -/
theorem C3_counterexample :
    set_then_get ArchKind.aarch64 cpu0 (RegRef.byName "SP") 1 = .ok 0 ∧
    (Except.ok (0 : Int) : Except ArchError Int) ≠ .ok 1 := by
  refine ⟨rfl, ?_⟩
  intro h
  simp at h

/-- C3 (amended): for every architecture profile, every register name
in its table other than AArch64's "SP", and every value representable
at the architecture's word width (all-zeros and all-ones included),
`set_register` followed by `get_register` returns the written value. -/
theorem C3_amended_thm (a : ArchKind) (cpu : CpuState) (name : String)
    (v : Int)
    (hmem : name ∈ (profile a).registers.map Prod.fst)
    (hexc : ¬(a = ArchKind.aarch64 ∧ name = "SP"))
    (h0 : 0 ≤ v) (hw : v < 2 ^ (profile a).bits) :
    set_then_get a cpu (RegRef.byName name) v = .ok v := by
  have hup : strUpper name = name := key_upper_of_mem a name hmem
  obtain ⟨i, hi⟩ := Option.isSome_iff_exists.mp (mem_keys_isSome hmem)
  have hl : lookupReg a (strUpper name) = some i := by
    rw [hup]; exact hi
  refine set_get_roundtrip a cpu name i v hl ?_ h0 hw
  intro ha h32
  subst ha
  subst h32
  exact hexc ⟨rfl, aarch64_reg32_sp (name, 32) (lookup_mem hi) rfl⟩

/-- C3 witness: the round trip at ARM's "R0" with the all-ones 32-bit
word. -/
theorem C3_witness :
    "R0" ∈ (profile ArchKind.arm).registers.map Prod.fst ∧
    set_then_get ArchKind.arm cpu0 (RegRef.byName "R0") 4294967295 =
      .ok 4294967295 :=
  ⟨by decide,
   C3_amended_thm ArchKind.arm cpu0 "R0" 4294967295 (by decide) (by decide)
     (by decide) (by decide)⟩

/-- C4 counterexample: with A3 = 2 (nonzero but not 1) and V0 = 5, the
MIPS syscall return value is 5, not the -5 that negation on every
nonzero status register would give: the source negates only when A3
reads exactly 1. -/
theorem C4_counterexample :
    get_retval ArchKind.mips cpuC4 "syscall" = .ok 5 ∧ (5 : Int) ≠ -5 := by
  exact ⟨rfl, by decide⟩

/-- C4 (amended): on both MIPS variants (A3 is slot 7 and V0 is slot 2
in both register tables), `get_retval(cpu, "syscall")` negates the raw
return-register value exactly when the status register A3 equals 1, and
returns it unchanged when A3 = 0 (no signed conversion is applied on
the MIPS path); concretely A3 = 1, V0 = 5 gives -5 and A3 = 0 gives 5. -/
theorem C4_amended_thm (a : ArchKind) (cpu : CpuState)
    (ha : a = ArchKind.mips ∨ a = ArchKind.mips64) :
    (cpu.regs 7 = 1 →
      get_retval a cpu "syscall" = .ok (-(cpu.regs 2))) ∧
    (cpu.regs 7 = 0 →
      get_retval a cpu "syscall" = .ok (cpu.regs 2)) := by
  rcases ha with rfl | rfl
  · have hA3 : lookupReg ArchKind.mips (strUpper "A3") = some 7 := by decide
    have hV0 : lookupReg ArchKind.mips (strUpper "V0") = some 2 := by decide
    have hRV : getRetValReg ArchKind.mips "default" = .ok "V0" := rfl
    constructor
    · intro h1
      simp [get_retval, mips_get_retval, base_get_retval, hRV, get_reg, hA3,
        hV0, rawGet, h1]
    · intro h0
      simp [get_retval, mips_get_retval, base_get_retval, hRV, get_reg, hA3,
        hV0, rawGet, h0]
  · have hA3 : lookupReg ArchKind.mips64 (strUpper "A3") = some 7 := by decide
    have hV0 : lookupReg ArchKind.mips64 (strUpper "V0") = some 2 := by decide
    have hRV : getRetValReg ArchKind.mips64 "default" = .ok "V0" := rfl
    constructor
    · intro h1
      simp [get_retval, mips_get_retval, base_get_retval, hRV, get_reg, hA3,
        hV0, rawGet, h1]
    · intro h0
      simp [get_retval, mips_get_retval, base_get_retval, hRV, get_reg, hA3,
        hV0, rawGet, h0]

/-- C4 witness: the two concrete cases of the claim, A3 = 1, V0 = 5
giving -5 and A3 = 0, V0 = 5 giving 5, on each of MIPS32 and MIPS64. -/
theorem C4_witness :
    get_retval ArchKind.mips cpuA3one "syscall" = .ok (-5) ∧
    get_retval ArchKind.mips cpuA3zero "syscall" = .ok 5 ∧
    get_retval ArchKind.mips64 cpuA3one "syscall" = .ok (-5) ∧
    get_retval ArchKind.mips64 cpuA3zero "syscall" = .ok 5 :=
  ⟨(C4_amended_thm ArchKind.mips cpuA3one (Or.inl rfl)).1 rfl,
   (C4_amended_thm ArchKind.mips cpuA3zero (Or.inl rfl)).2 rfl,
   (C4_amended_thm ArchKind.mips64 cpuA3one (Or.inr rfl)).1 rfl,
   (C4_amended_thm ArchKind.mips64 cpuA3zero (Or.inr rfl)).2 rfl⟩

/-- C5: on both MIPS variants, `set_retval(cpu, v, "syscall", failure)`
writes A3 (slot 7 in both register tables) to the failure flag, and
when failure holds and the signed reinterpretation of v at the
profile's word width is negative it stores that magnitude (as a machine
word) in V0 (slot 2) instead of v. -/
theorem C5_thm (a : ArchKind) (cpu : CpuState) (v : Int) (failure : Bool)
    (ha : a = ArchKind.mips ∨ a = ArchKind.mips64) :
    ∃ c, set_retval a cpu v "syscall" failure = .ok c ∧
      c.regs 7 = (if failure then 1 else 0) ∧
      (failure = true → from_unsigned_guest (profile a).bits v < 0 →
        c.regs 2 = |from_unsigned_guest (profile a).bits v| %
          2 ^ (profile a).bits) := by
  rcases ha with rfl | rfl
  · refine ⟨rawSet ArchKind.mips
      (rawSet ArchKind.mips cpu 7 (if failure then 1 else 0)) 2
      (if failure = true ∧
          from_unsigned_guest (profile ArchKind.mips).bits v < 0
       then -1 * from_unsigned_guest (profile ArchKind.mips).bits v else v),
      rfl, ?_, ?_⟩
    · cases failure
      · simp [rawSet]
      · simp [rawSet]
        decide
    · intro hf hneg
      subst hf
      simp only [rawSet]
      simp [hneg, abs_of_neg hneg]
  · refine ⟨rawSet ArchKind.mips64
      (rawSet ArchKind.mips64 cpu 7 (if failure then 1 else 0)) 2
      (if failure = true ∧
          from_unsigned_guest (profile ArchKind.mips64).bits v < 0
       then -1 * from_unsigned_guest (profile ArchKind.mips64).bits v else v),
      rfl, ?_, ?_⟩
    · cases failure
      · simp [rawSet]
      · simp [rawSet]
        decide
    · intro hf hneg
      subst hf
      simp only [rawSet]
      simp [hneg, abs_of_neg hneg]

/-- C5 witness: `set_retval(cpu, -7, "syscall", failure=true)` leaves
A3 = 1 and the return register V0 = 7, on each of MIPS32 and MIPS64. -/
theorem C5_witness :
    (∃ c, set_retval ArchKind.mips cpu0 (-7) "syscall" true = .ok c ∧
      c.regs 7 = 1 ∧ c.regs 2 = 7) ∧
    (∃ c, set_retval ArchKind.mips64 cpu0 (-7) "syscall" true = .ok c ∧
      c.regs 7 = 1 ∧ c.regs 2 = 7) := by
  constructor
  · obtain ⟨c, h1, h2, h3⟩ := C5_thm ArchKind.mips cpu0 (-7) true (Or.inl rfl)
    exact ⟨c, h1, h2, h3 rfl (by decide)⟩
  · obtain ⟨c, h1, h2, h3⟩ := C5_thm ArchKind.mips64 cpu0 (-7) true (Or.inr rfl)
    exact ⟨c, h1, h2, h3 rfl (by decide)⟩

/-- C6 counterexample: the AArch64 profile does not define 33 distinct
named registers; its register table has 32 entries because the source
name list repeats "X27". -/
theorem C6_counterexample :
    (profile ArchKind.aarch64).registers.length ≠ 33 := by decide

/-- C6 (amended): for every architecture profile the register table
keys are pairwise distinct and stored case-normalized (uppercase), and
every non-stack location named by a calling convention, and every
return-value register name, is a key of the table; the AArch64 profile
defines 32 distinct named registers (its source list repeats "X27"). -/
theorem C6_amended_thm (a : ArchKind) :
    ((profile a).registers.map Prod.fst).Nodup ∧
    (∀ p ∈ (profile a).registers, strUpper p.1 = p.1) ∧
    (∀ q ∈ (profile a).call_conventions, ∀ loc ∈ q.2,
      isStackLoc loc = false →
      loc ∈ (profile a).registers.map Prod.fst) ∧
    (∀ r ∈ (profile a).reg_retval,
      r.2 ∈ (profile a).registers.map Prod.fst) ∧
    (profile ArchKind.aarch64).registers.length = 32 := by
  cases a <;> refine ⟨by decide, by decide, by decide, by decide, by decide⟩

/-- C6 witness: the ARM convention "arm32" names "R0", which the ARM
register table indeed contains; and the AArch64 table size is 32. -/
theorem C6_witness :
    "R0" ∈ (profile ArchKind.arm).registers.map Prod.fst ∧
    (profile ArchKind.aarch64).registers.length = 32 :=
  ⟨(C6_amended_thm ArchKind.arm).2.2.1 ("arm32", ["R0", "R1", "R2", "R3"])
     (by decide) "R0" (by decide) (by decide),
   (C6_amended_thm ArchKind.arm).2.2.2.2⟩

/-- C7: on every architecture, `get_argument` fails with the
unsupported-convention error when the convention is not in the
profile's convention map, and with the argument-index-out-of-range
error when the convention exists but the index is not below the length
of its location list. -/
theorem C7_thm (a : ArchKind) (cpu : CpuState) (mem : Int → Nat → Option Int)
    (idx : Nat) (conv : String) :
    (((profile a).call_conventions).lookup conv = none →
      get_arg a cpu mem idx conv = .error (.unsupportedConvention conv)) ∧
    (∀ locs, ((profile a).call_conventions).lookup conv = some locs →
      locs.length ≤ idx →
      get_arg a cpu mem idx conv = .error (.argumentIndexOutOfRange idx)) := by
  constructor
  · intro h
    simp [get_arg, getArgLoc, h]
  · intro locs h hlen
    simp [get_arg, getArgLoc, h, dif_neg (Nat.not_lt.mpr hlen)]

/-- C7 witness: an undefined convention on X86 and an out-of-range
index on ARM's default convention. -/
theorem C7_witness :
    get_arg ArchKind.x86 cpu0 memOk 0 "bogus" =
      .error (.unsupportedConvention "bogus") ∧
    get_arg ArchKind.arm cpu0 memOk 4 "default" =
      .error (.argumentIndexOutOfRange 4) :=
  ⟨(C7_thm ArchKind.x86 cpu0 memOk 0 "bogus").1 (by decide),
   (C7_thm ArchKind.arm cpu0 memOk 4 "default").2 ["R0", "R1", "R2", "R3"]
     (by decide) (by decide)⟩

/-- C8 counterexample: on MIPS, writing syscall argument 5 resolves to
the stack slot "stack_1", and `set_argument` fails with the
unknown-register error for the uppercased location name, which is not
the unsupported-operation error kind the claim requires. -/
theorem C8_counterexample :
    set_arg ArchKind.mips cpu0 5 0 "syscall" =
      .error (.unknownRegister "STACK_1") ∧
    ∀ msg, ArchError.unknownRegister "STACK_1" ≠
      ArchError.unsupportedOperation msg := by
  refine ⟨rfl, ?_⟩
  intro msg h
  exact ArchError.noConfusion h

/-- C8 (amended): when the resolved argument location is a stack slot,
`set_argument` fails explicitly, but with the unknown-register error
for the uppercased slot name (the location is fed to register
resolution unchanged), not with an unsupported-operation signal. -/
theorem C8_amended_thm (a : ArchKind) (cpu : CpuState) (idx : Nat) (v : Int)
    (conv loc : String)
    (hloc : getArgLoc a idx conv = .ok loc)
    (_hstack : isStackLoc loc = true)
    (hnone : lookupReg a (strUpper loc) = none) :
    set_arg a cpu idx v conv = .error (.unknownRegister (strUpper loc)) := by
  simp [set_arg, hloc, set_reg, hnone]

/-- C8 witness: the MIPS syscall stack slot "stack_1". -/
theorem C8_witness :
    getArgLoc ArchKind.mips 5 "syscall" = .ok "stack_1" ∧
    set_arg ArchKind.mips cpu0 5 0 "syscall" =
      .error (.unknownRegister "STACK_1") :=
  ⟨rfl,
   C8_amended_thm ArchKind.mips cpu0 5 0 "syscall" "stack_1" rfl (by decide)
     (by decide)⟩

/-- C9: register lookup by textual name is case-insensitive: reading a
register through any spelling whose uppercasing is a table name equals
reading it through the table name itself, on every architecture and
every CPU state. -/
theorem C9_thm (a : ArchKind) (cpu : CpuState) (s name : String)
    (hmem : name ∈ (profile a).registers.map Prod.fst)
    (hcase : strUpper s = name) :
    get_reg a cpu (RegRef.byName s) = get_reg a cpu (RegRef.byName name) := by
  have hup : strUpper name = name := key_upper_of_mem a name hmem
  simp only [get_reg, hcase, hup]

/-- C9 witness: ARM's "r0" and "R0" read the same value 42. -/
theorem C9_witness :
    "R0" ∈ (profile ArchKind.arm).registers.map Prod.fst ∧
    strUpper "r0" = "R0" ∧
    get_reg ArchKind.arm cpuC9 (RegRef.byName "r0") =
      get_reg ArchKind.arm cpuC9 (RegRef.byName "R0") ∧
    get_reg ArchKind.arm cpuC9 (RegRef.byName "R0") = .ok 42 :=
  ⟨by decide, by decide,
   C9_thm ArchKind.arm cpuC9 "r0" "R0" (by decide) (by decide), rfl⟩

/-- C10: on AArch64 the name "SP" (under any casing) resolves to index
32, the raw read primitive answers that slot with 0 regardless of the
register file, so `get_register` returns 0 both before and after any
`set_register` on the same name: the set-then-get round trip fails for
AArch64's stack-pointer name. -/
theorem C10_thm (cpu : CpuState) (v : Int) (s : String)
    (hs : strUpper s = "SP") :
    lookupReg ArchKind.aarch64 "SP" = some 32 ∧
    get_reg ArchKind.aarch64 cpu (RegRef.byName s) = .ok 0 ∧
    set_then_get ArchKind.aarch64 cpu (RegRef.byName s) v = .ok 0 := by
  have hl : lookupReg ArchKind.aarch64 "SP" = some 32 := by decide
  refine ⟨hl, ?_, ?_⟩
  · simp only [get_reg, hs, hl]
    simp [rawGet]
  · simp only [set_then_get, set_reg, get_reg, hs, hl]
    simp [rawGet]

/-- C10 witness: reading "sp" on AArch64 yields 0, and still yields 0
after writing 5 through the same name. -/
theorem C10_witness :
    strUpper "sp" = "SP" ∧
    get_reg ArchKind.aarch64 cpu0 (RegRef.byName "sp") = .ok 0 ∧
    set_then_get ArchKind.aarch64 cpu0 (RegRef.byName "sp") 5 = .ok 0 :=
  ⟨by decide, (C10_thm cpu0 5 "sp" (by decide)).2.1,
   (C10_thm cpu0 5 "sp" (by decide)).2.2⟩

end PandaArch
